import Mathlib

/-!
Verification of the remote-shutdown repository: a shallow embedding of the
authentication guard (desktop-service/src/middleware/auth.ts), the HTTP
controllers (shutdownController), the system service executor
(systemService), the Bluetooth serial server (bluetoothServer) and client
(bluetoothService), the network scanner (networkScanner), and the mobile
dispatcher component (ShutdownButton.tsx), together with theorems settling
the claims of the specification about them.
-/

namespace RemoteShutdown

/-! ## JavaScript string primitives

The TypeScript sources use `String.prototype.split` (single-character
separator), `trim`, `toLowerCase`, and truthiness-based defaulting
(`a || b`).  We embed those operations directly; each is executable so
concrete scenarios evaluate by `decide`. -/

/-- `splitCharAux sep cs acc` splits the character list `cs` at every
occurrence of `sep`, with `acc` the (reversed) characters of the current
segment.  Mirrors JS `str.split(sep)` for a one-character separator:
the result always has one more segment than there are separators, so
`"".split(":") = [""]` and `":".split(":") = ["", ""]`. -/
def splitCharAux (sep : Char) : List Char → List Char → List (List Char)
  | [], acc => [acc.reverse]
  | c :: cs, acc =>
    if c == sep then acc.reverse :: splitCharAux sep cs []
    else splitCharAux sep cs (c :: acc)

/-- JS `s.split(sep)` for a single-character separator. -/
def jsSplit (sep : Char) (s : String) : List String :=
  (splitCharAux sep s.data []).map List.asString

/-- JS `s.trim()`: strip leading and trailing whitespace (the inputs in this
repository only ever carry ASCII spaces and newlines, which JS and Lean
both classify as whitespace). -/
def jsTrim (s : String) : String :=
  ((s.data.dropWhile Char.isWhitespace).reverse.dropWhile Char.isWhitespace).reverse.asString

/-- JS `s.toLowerCase()` (ASCII fragment, which covers every action token
in the protocol). -/
def jsToLower (s : String) : String :=
  (s.data.map Char.toLower).asString

/-- JS truthiness of a possibly-absent string: `undefined` and `""` are
falsy, every other string is truthy. -/
def jsTruthy : Option String → Bool
  | none => false
  | some s => !(s == "")

/-- JS `a || b` on possibly-absent strings. -/
def jsOrOpt (a b : Option String) : Option String :=
  if jsTruthy a then a else b

/-- JS `v || d` where `v` is a possibly-absent string and `d` a default. -/
def jsOrStr (v : Option String) (d : String) : String :=
  match v with
  | none => d
  | some s => if s == "" then d else s

/-! ## HTTP response shape

`shutdownController.ts` and `auth.ts` reply with `res.status(n).json({...})`.
We record the status code together with every field any handler ever
writes; fields a handler does not write stay `none`. -/

/-- System introspection data returned by `getSystemInfo` in
`systemService.ts` (values come from `os.*`, i.e. from the environment). -/
structure SystemInfo where
  hostname : String
  platform : String
  release : String
  uptime : Nat
  uptimeFormatted : String
  totalMemory : String
  freeMemory : String
  cpus : Nat
  localIP : String
  timestamp : String
  deriving DecidableEq

/-- One HTTP reply: status code plus the JSON body fields used by the
service (`success`, `message`, `error`, `code`, `scheduledTime`, and the
spread status payload of `handleStatus`). -/
structure HttpResp where
  status : Nat
  success : Bool
  message : Option String := none
  error : Option String := none
  code : Option String := none
  scheduledTime : Option String := none
  statusPayload : Option SystemInfo := none
  deriving DecidableEq

/-- The 401 body written by `authenticate` when no key is provided. -/
def authRequiredResp : HttpResp :=
  { status := 401, success := false,
    error := some "Authentication required. Please provide a secret key.",
    code := some "AUTH_REQUIRED" }

/-- The 403 body written by `authenticate` on a key mismatch. -/
def invalidKeyResp : HttpResp :=
  { status := 403, success := false,
    error := some "Invalid secret key. Access denied.",
    code := some "INVALID_KEY" }

/-- Outcome of the middleware: `allow` models calling `next()`, `reject r`
models writing the response `r` and returning. -/
inductive AuthResult where
  | allow
  | reject (resp : HttpResp)
  deriving DecidableEq

/-- `authenticate` from `middleware/auth.ts`:

    const providedKey = req.body?.key || req.headers["x-shared-secret"];
    if (!providedKey) { 401 AUTH_REQUIRED }
    if (String(providedKey).trim() === SECRET_KEY.trim()) next();
    else { 403 INVALID_KEY }

`bodyKey` is `req.body?.key` and `headerKey` the `x-shared-secret` header;
`none` models JS `undefined`. -/
def authenticate (secret : String) (bodyKey headerKey : Option String) : AuthResult :=
  match jsOrOpt bodyKey headerKey with
  | none => .reject authRequiredResp
  | some k =>
    if k == "" then .reject authRequiredResp
    else if jsTrim k == jsTrim secret then .allow
    else .reject invalidKeyResp

/-! ## System service (the Power Control Surface boundary)

`systemService.ts` wraps one `exec` (or native) call per operation.  The
OS outcome of each call is external, so we model it with an oracle
environment `SysEnv`: one `ExecResult` per operation plus the
introspection data and wall clock the handlers read. -/

/-- Outcome of one underlying OS command invocation. -/
inductive ExecResult where
  | ok
  | err (msg : String)
  deriving DecidableEq

/-- External-world oracle: the result each OS call would produce, the
`os.*` introspection snapshot, the current time in milliseconds, and the
`Date.toISOString` rendering used for `scheduledTime`. -/
structure SysEnv where
  shutdownExec : ExecResult
  restartExec : ExecResult
  sleepExec : ExecResult
  hibernateExec : ExecResult
  logoutExec : ExecResult
  cancelExec : ExecResult
  sysInfo : SystemInfo
  nowMs : Nat
  isoOf : Nat → String

/-- `shutdownSystem(delay, force)`: rejects exactly when the OS command
errors.  (The optional `node-shutdown-windows` fast path also resolves on
success and falls through on failure, so the promise semantics are the
same.)  `delay` and `force` select the command line but do not affect the
promise outcome. -/
def shutdownSystem (_delay : Nat) (_force : Bool) (e : SysEnv) : Except String Unit :=
  match e.shutdownExec with
  | .ok => .ok ()
  | .err m => .error m

/-- `restartSystem(delay, force)`. -/
def restartSystem (_delay : Nat) (_force : Bool) (e : SysEnv) : Except String Unit :=
  match e.restartExec with
  | .ok => .ok ()
  | .err m => .error m

/-- `sleepSystem()`. -/
def sleepSystem (e : SysEnv) : Except String Unit :=
  match e.sleepExec with
  | .ok => .ok ()
  | .err m => .error m

/-- `hibernateSystem()`. -/
def hibernateSystem (e : SysEnv) : Except String Unit :=
  match e.hibernateExec with
  | .ok => .ok ()
  | .err m => .error m

/-- `logoutSystem()` (native path and `shutdown /l` fallback agree on the
promise outcome as for `shutdownSystem`). -/
def logoutSystem (e : SysEnv) : Except String Unit :=
  match e.logoutExec with
  | .ok => .ok ()
  | .err m => .error m

/-- `cancelShutdown()` runs `shutdown /a` and resolves in BOTH callback
branches — an `exec` error ("might be no scheduled shutdown") is logged
and swallowed, never rejected. -/
def cancelShutdown (e : SysEnv) : Except String Unit :=
  match e.cancelExec with
  | .ok => .ok ()
  | .err _ => .ok ()

/-- `getSystemInfo()` reads the `os.*` snapshot. -/
def getSystemInfo (e : SysEnv) : SystemInfo := e.sysInfo

/-! ## HTTP controllers (`shutdownController.ts`) -/

/-- Request body after express JSON parsing, with the controller-side
defaults `delay = 0`, `force = false` already applied
(`const { delay = 0, force = false } = req.body`). -/
structure ShutdownBody where
  key : Option String := none
  delay : Nat := 0
  force : Bool := false
  deriving DecidableEq

/-- `handleShutdown`: on success replies 200 with a delay-dependent message
and `scheduledTime = new Date(Date.now() + delay * 1000).toISOString()`;
on failure replies 500 `SHUTDOWN_FAILED`. -/
def handleShutdown (body : ShutdownBody) (e : SysEnv) : HttpResp :=
  match shutdownSystem body.delay body.force e with
  | .ok _ =>
    { status := 200, success := true,
      message := some (if body.delay > 0
        then "Shutdown scheduled in " ++ toString body.delay ++ " seconds"
        else "Shutdown initiated immediately"),
      scheduledTime := some (e.isoOf (e.nowMs + body.delay * 1000)) }
  | .error _ =>
    { status := 500, success := false,
      error := some "Failed to initiate shutdown", code := some "SHUTDOWN_FAILED" }

/-- `handleRestart`. -/
def handleRestart (body : ShutdownBody) (e : SysEnv) : HttpResp :=
  match restartSystem body.delay body.force e with
  | .ok _ =>
    { status := 200, success := true,
      message := some (if body.delay > 0
        then "Restart scheduled in " ++ toString body.delay ++ " seconds"
        else "Restart initiated immediately"),
      scheduledTime := some (e.isoOf (e.nowMs + body.delay * 1000)) }
  | .error _ =>
    { status := 500, success := false,
      error := some "Failed to initiate restart", code := some "RESTART_FAILED" }

/-- `handleSleep`. -/
def handleSleep (e : SysEnv) : HttpResp :=
  match sleepSystem e with
  | .ok _ => { status := 200, success := true, message := some "Sleep mode initiated" }
  | .error _ =>
    { status := 500, success := false,
      error := some "Failed to initiate sleep mode", code := some "SLEEP_FAILED" }

/-- `handleHibernate`. -/
def handleHibernate (e : SysEnv) : HttpResp :=
  match hibernateSystem e with
  | .ok _ => { status := 200, success := true, message := some "Hibernate mode initiated" }
  | .error _ =>
    { status := 500, success := false,
      error := some "Failed to initiate hibernate mode", code := some "HIBERNATE_FAILED" }

/-- `handleCancel`: 200 on resolve, 500 `CANCEL_FAILED` on reject. -/
def handleCancel (e : SysEnv) : HttpResp :=
  match cancelShutdown e with
  | .ok _ =>
    { status := 200, success := true, message := some "Scheduled shutdown/restart cancelled" }
  | .error _ =>
    { status := 500, success := false,
      error := some "Failed to cancel or no scheduled shutdown found",
      code := some "CANCEL_FAILED" }

/-- `handleLogout`. -/
def handleLogout (e : SysEnv) : HttpResp :=
  match logoutSystem e with
  | .ok _ => { status := 200, success := true, message := some "Logging out..." }
  | .error _ =>
    { status := 500, success := false,
      error := some "Failed to logout", code := some "LOGOUT_FAILED" }

/-- `handleStatus`: 200 with the spread `getSystemInfo()` payload
(`getSystemInfo` reads fields and cannot throw, so the catch branch is
unreachable in the model). -/
def handleStatus (e : SysEnv) : HttpResp :=
  { status := 200, success := true, statusPayload := some (getSystemInfo e) }

/-- The authenticated routes mounted in `routes/index.ts`. -/
inductive Route where
  | shutdown | restart | sleep | hibernate | logout | cancel | status
  deriving DecidableEq

/-- Controller dispatch after the middleware has called `next()`. -/
def routeHandle (r : Route) (body : ShutdownBody) (e : SysEnv) : HttpResp :=
  match r with
  | .shutdown => handleShutdown body e
  | .restart => handleRestart body e
  | .sleep => handleSleep e
  | .hibernate => handleHibernate e
  | .logout => handleLogout e
  | .cancel => handleCancel e
  | .status => handleStatus e

/-- One authenticated API request end to end: `router.post(path,
authenticate, handler)` — the middleware either writes its rejection or
passes control to the controller. -/
def apiHandle (r : Route) (secret : String) (body : ShutdownBody)
    (headerKey : Option String) (e : SysEnv) : HttpResp :=
  match authenticate secret body.key headerKey with
  | .allow => routeHandle r body e
  | .reject resp => resp

/-! ## Bluetooth serial server (`bluetoothServer.ts`) -/

/-- A parsed wire command: `action:key:opt1=val1,opt2=val2`. -/
structure BluetoothCommand where
  action : String
  key : String
  options : List (String × String)
  deriving DecidableEq

/-- JS record read `options[k]`: assignments are modelled as an append
list, so the LAST binding wins, as in JS. -/
def optGet (opts : List (String × String)) (k : String) : Option String :=
  opts.reverse.lookup k

/-- The option-bag loop of `parseCommand`: split on `","`, split each pair
on `"="`, keep the pair when the key is truthy and a value segment exists,
trimming both. -/
def parseOptions (optionsStr : String) : List (String × String) :=
  if optionsStr == "" then []
  else
    (jsSplit ',' optionsStr).foldl
      (fun opts pair =>
        match jsSplit '=' pair with
        | k :: v :: _ => if k == "" then opts else opts ++ [(jsTrim k, jsTrim v)]
        | _ => opts)
      []

/-- `parseCommand` from `bluetoothServer.ts`: trim the line, split on
`":"`, reject fewer than two fields, lowercase the action, take the key
verbatim, and parse `parts[2] || ""` as the option bag.  (The `try/catch`
wrapper is dead in the model: no step can throw.) -/
def parseCommand (data : String) : Option BluetoothCommand :=
  let trimmed := jsTrim data
  let parts := jsSplit ':' trimmed
  if parts.length < 2 then none
  else
    some { action := jsToLower ((parts.get? 0).getD "")
         , key := (parts.get? 1).getD ""
         , options := parseOptions (jsOrStr (parts.get? 2) "") }

/-- The guard at line 133 of `bluetoothServer.ts`:
`if (command.key !== secretKey)` — a verbatim, UNtrimmed comparison. -/
def btKeyValid (command : BluetoothCommand) (secretKey : String) : Bool :=
  command.key == secretKey

/-- Minimal `JSON.stringify` string escaping (quote and backslash; the literal
messages of the service contain no control characters). -/
def jsonEscape (s : String) : String :=
  s.data.foldl
    (fun acc c =>
      if c == '\\' then acc ++ "\\\\"
      else if c == '"' then acc ++ "\\\""
      else acc.push c)
    ""

/-- Extra payload spread into a Bluetooth JSON response: the `status`
action spreads `getSystemInfo()`, `ping` adds `hostname`. -/
inductive BtExtra where
  | statusPayload (info : SystemInfo)
  | pong (hostname : String)
  deriving DecidableEq

/-- Structured form of one Bluetooth reply before JSON rendering. -/
structure BtResp where
  success : Bool
  message : String
  extra : Option BtExtra := none
  deriving DecidableEq

/-- Render one JSON string field `"k":"v"`. -/
def jsonStrField (k v : String) : String :=
  "\"" ++ k ++ "\":\"" ++ jsonEscape v ++ "\""

/-- Render one JSON number field `"k":n`. -/
def jsonNatField (k : String) (n : Nat) : String :=
  "\"" ++ k ++ "\":" ++ toString n

/-- JSON rendering of the spread `getSystemInfo()` fields, in the object
order of `systemService.ts`. -/
def renderSystemInfo (i : SystemInfo) : String :=
  jsonStrField "hostname" i.hostname ++ "," ++
  jsonStrField "platform" i.platform ++ "," ++
  jsonStrField "release" i.release ++ "," ++
  jsonNatField "uptime" i.uptime ++ "," ++
  jsonStrField "uptimeFormatted" i.uptimeFormatted ++ "," ++
  jsonStrField "totalMemory" i.totalMemory ++ "," ++
  jsonStrField "freeMemory" i.freeMemory ++ "," ++
  jsonNatField "cpus" i.cpus ++ "," ++
  jsonStrField "localIP" i.localIP ++ "," ++
  jsonStrField "timestamp" i.timestamp

/-- JSON rendering of the spread `extra` argument. -/
def renderExtra : BtExtra → String
  | .statusPayload i => renderSystemInfo i
  | .pong h => jsonStrField "hostname" h

/-- `createResponse(success, message, extra?)`:
`JSON.stringify({ success, message, ...extra }) + "\n"`. -/
def createResponse (success : Bool) (message : String)
    (extra : Option BtExtra := none) : String :=
  "\x7b\"success\":" ++ (if success then "true" else "false") ++
    ",\"message\":\"" ++ jsonEscape message ++ "\"" ++
    (match extra with
     | none => ""
     | some e => "," ++ renderExtra e) ++
    "\x7d\n"

/-- `parseInt(command.options.delay || "0", 10)` for the decimal strings
the protocol actually carries (a non-numeric string would give `NaN`,
which every guard in `processCommand` treats like `0`; we flatten it to
`0`). -/
def parsedDelay (s : String) : Nat :=
  ((jsTrim s).toNat?).getD 0

/-- Structured result of `processCommand`: parse, authenticate with
`btKeyValid`, read the `delay`/`force` options, then run the action
against the executor, catching executor rejections as
`Action failed: <msg>`. -/
def processCommandR (commandStr secretKey : String) (e : SysEnv) : BtResp :=
  match parseCommand commandStr with
  | none => { success := false, message := "Invalid command format. Use: action:key:options" }
  | some command =>
    if !btKeyValid command secretKey then
      { success := false, message := "Authentication failed: Invalid key" }
    else
      let delay := parsedDelay (jsOrStr (optGet command.options "delay") "0")
      let force := (optGet command.options "force").getD "" == "true"
      if command.action == "shutdown" then
        match shutdownSystem delay force e with
        | .ok _ =>
          { success := true,
            message := if delay > 0
              then "PC will shut down in " ++ toString delay ++ " seconds"
              else "PC is shutting down..." }
        | .error m => { success := false, message := "Action failed: " ++ m }
      else if command.action == "restart" then
        match restartSystem delay force e with
        | .ok _ =>
          { success := true,
            message := if delay > 0
              then "PC will restart in " ++ toString delay ++ " seconds"
              else "PC is restarting..." }
        | .error m => { success := false, message := "Action failed: " ++ m }
      else if command.action == "sleep" then
        match sleepSystem e with
        | .ok _ => { success := true, message := "PC is going to sleep..." }
        | .error m => { success := false, message := "Action failed: " ++ m }
      else if command.action == "hibernate" then
        match hibernateSystem e with
        | .ok _ => { success := true, message := "PC is hibernating..." }
        | .error m => { success := false, message := "Action failed: " ++ m }
      else if command.action == "logout" then
        match logoutSystem e with
        | .ok _ => { success := true, message := "Logging out..." }
        | .error m => { success := false, message := "Action failed: " ++ m }
      else if command.action == "cancel" then
        match cancelShutdown e with
        | .ok _ => { success := true, message := "Shutdown cancelled" }
        | .error m => { success := false, message := "Action failed: " ++ m }
      else if command.action == "status" then
        { success := true, message := "Status retrieved",
          extra := some (.statusPayload (getSystemInfo e)) }
      else if command.action == "ping" then
        { success := true, message := "pong", extra := some (.pong e.sysInfo.hostname) }
      else
        { success := false, message := "Unknown action: " ++ command.action }

/-- `processCommand`: the reply string actually written back on the wire —
the structured outcome rendered through `createResponse`. -/
def processCommand (commandStr secretKey : String) (e : SysEnv) : String :=
  let r := processCommandR commandStr secretKey e
  createResponse r.success r.message r.extra

/-! ## Bluetooth client encoder (`bluetoothService.ts`) -/

/-- Command construction in `sendBluetoothCommand`: `Object.entries(options)`
filtered to defined values, joined `k=v` with `","`; the options segment
AND its leading `":"` are omitted when the bag renders empty:

    const command = optionsStr
      ? `action:secretKey:optionsStr\n`
      : `action:secretKey\n`;

`options` is the `{ delay?, force? }` object, whose entry order is
`delay` then `force`. -/
def buildBtCommand (action secretKey : String)
    (delay : Option Nat) (force : Option Bool) : String :=
  let entries :=
    (match delay with
     | some d => ["delay=" ++ toString d]
     | none => []) ++
    (match force with
     | some b => ["force=" ++ (if b then "true" else "false")]
     | none => [])
  let optionsStr := String.intercalate "," entries
  if optionsStr == "" then action ++ ":" ++ secretKey ++ "\n"
  else action ++ ":" ++ secretKey ++ ":" ++ optionsStr ++ "\n"

/-! ## Network scanner (`networkScanner.ts`)

Each scan variant walks fixed `/24` address blocks in sequential batches:
`for (let start = 1; start <= N; start += batchSize)` probes
`[start, min(start + batchSize, N + 1))` concurrently via `Promise.all`
and only then moves on.  We reify the batch structure: the concurrent
fan-out of one batch is its element list, and sequential composition is
the outer list.  `Promise.all` preserves argument order, so the found
devices accumulate in address order within and across batches. -/

/-- The observable world of one `/health` probe: what `axios.get` at an
address yields — `none` for timeout/refusal/error, otherwise the `status`
and `hostname` fields of the reply body plus the measured round-trip time. -/
structure ProbeResult where
  status : String
  hostname : Option String := none
  rtt : Nat
  deriving DecidableEq

/-- A network: probe outcome per probed URL host. -/
abbrev ProbeEnv := String → Option ProbeResult

/-- A discovered device as produced by `checkServiceAtIP`. -/
structure DiscoveredDevice where
  ip : String
  port : Nat
  hostname : Option String
  responseTime : Nat
  hasService : Bool
  deriving DecidableEq

/-- `checkServiceAtIP`: positive only when the reply arrives AND carries
`status === "ok"`; then the descriptor records ip, port, reply hostname,
elapsed time, and `hasService: true`. -/
def checkServiceAtIP (env : ProbeEnv) (ip : String) (port : Nat) :
    Option DiscoveredDevice :=
  match env ip with
  | none => none
  | some r =>
    if r.status == "ok" then
      some { ip := ip, port := port, hostname := r.hostname,
             responseTime := r.rtt, hasService := true }
    else none

/-- Fuel-indexed chunking (structural, so concrete scans reduce inside
`decide`). -/
def chunksAux (n : Nat) : Nat → List α → List (List α)
  | _, [] => []
  | 0, _ => []
  | fuel + 1, x :: xs =>
    (x :: xs.take (n - 1)) :: chunksAux n fuel (xs.drop (n - 1))

/-- Split a list into consecutive chunks of `n` (the last may be shorter);
with `l` the address list this is exactly the batch sequence of the
`start += batchSize` loops. -/
def chunks (n : Nat) (l : List α) : List (List α) :=
  chunksAux n l.length l

/-- `` `${prefix}.${i}` `` — one candidate host address. -/
def ipStr (pre : String) (i : Nat) : String :=
  pre ++ "." ++ toString i

/-- `getHotspotPrefixes()`. -/
def getHotspotPrefixes : List String :=
  ["192.168.43", "192.168.137", "192.168.49"]

/-- The `quickPrefixes` literal of `quickScan` (same ranges). -/
def quickPrefixes : List String :=
  ["192.168.43", "192.168.137", "192.168.49"]

/-- Probe every batch of one prefix in order, keeping positive probes in
completion-list order (`Promise.all` preserves order; results are pushed
batch by batch). -/
def collectPrefix (env : ProbeEnv) (port : Nat) (pre : String)
    (batches : List (List Nat)) : List DiscoveredDevice :=
  (batches.map fun b => b.filterMap fun i => checkServiceAtIP env (ipStr pre i) port).flatten

/-- Insertion of one device into a list ascending by `responseTime`;
`insertRT`/`sortRT` model `found.sort((a, b) => a.responseTime - b.responseTime)`. -/
def insertRT (d : DiscoveredDevice) : List DiscoveredDevice → List DiscoveredDevice
  | [] => [d]
  | x :: xs =>
    if d.responseTime ≤ x.responseTime then d :: x :: xs
    else x :: insertRT d xs

/-- Sort by ascending `responseTime` (insertion sort; JS `Array.sort` with
this comparator produces some permutation ordered by the same key). -/
def sortRT : List DiscoveredDevice → List DiscoveredDevice
  | [] => []
  | x :: xs => insertRT x (sortRT xs)

/-- Boolean check that `responseTime` is non-decreasing along a list. -/
def isSortedRT : List DiscoveredDevice → Bool
  | [] => true
  | [_] => true
  | a :: b :: rest => decide (a.responseTime ≤ b.responseTime) && isSortedRT (b :: rest)

/-- `scanAllDevices` batches: `batchSize = 50`, hosts `1..254`. -/
def scanAllDevicesBatches : List (List Nat) := chunks 50 (List.range' 1 254)

/-- `scanNetwork` batches: `batchSize = 20`, hosts `1..255`. -/
def scanNetworkBatches : List (List Nat) := chunks 20 (List.range' 1 255)

/-- `quickScan` batches: `batchSize = 30`, hosts `1..255`. -/
def quickScanBatches : List (List Nat) := chunks 30 (List.range' 1 255)

/-- `scanSubnet` batches: `batchSize = 25`, hosts `1..255`. -/
def scanSubnetBatches : List (List Nat) := chunks 25 (List.range' 1 255)

/-- `scanHotspotDevices` batches: `batchSize = 10`, hosts `1..30`
(`maxIP = 30`). -/
def scanHotspotBatches : List (List Nat) := chunks 10 (List.range' 1 30)

/-- `scanAllDevices`: all hotspot prefixes, then a final sort by latency. -/
def scanAllDevices (env : ProbeEnv) (port : Nat := 3000) : List DiscoveredDevice :=
  sortRT ((getHotspotPrefixes.map fun p => collectPrefix env port p scanAllDevicesBatches).flatten)

/-- `scanNetwork`: all hotspot prefixes, then a final sort by latency. -/
def scanNetwork (env : ProbeEnv) (port : Nat := 3000) : List DiscoveredDevice :=
  sortRT ((getHotspotPrefixes.map fun p => collectPrefix env port p scanNetworkBatches).flatten)

/-- `quickScan`: its own (identical) prefix list, then a sort by latency. -/
def quickScan (env : ProbeEnv) (port : Nat := 3000) : List DiscoveredDevice :=
  sortRT ((quickPrefixes.map fun p => collectPrefix env port p quickScanBatches).flatten)

/-- `scanSubnet`: ONE caller-chosen prefix — and `return foundDevices;`
with NO sort at the end, unlike every sibling variant. -/
def scanSubnet (env : ProbeEnv) (pre : String) (port : Nat := 3000) :
    List DiscoveredDevice :=
  collectPrefix env port pre scanSubnetBatches

/-- `scanHotspotDevices`: hotspot prefixes, hosts `1..30`, sorted. -/
def scanHotspotDevices (env : ProbeEnv) (port : Nat := 3000) : List DiscoveredDevice :=
  sortRT ((getHotspotPrefixes.map fun p => collectPrefix env port p scanHotspotBatches).flatten)

/-! ## Dispatcher (`ShutdownButton.tsx`)

The observable component state is `isProcessing`, `isCountingDown` and
`countdown`; its outward effects are the transport calls made by
`executeAction` and the `Alert.alert` error popups.  `handlePress` is the
button press handler, `tickStep` the 1-second `setInterval` callback
(which only exists while counting down), and `runTicks`/`pressAndRun`
chain them, accumulating emitted requests and alerts. -/

/-- Component state (`Idle` is `isCountingDown = false`, `countdown = 0`). -/
structure BtnState where
  isProcessing : Bool
  isCountingDown : Bool
  countdown : Nat
  deriving DecidableEq

/-- The argument tuple handed to the send function of the active transport
(`sendBluetoothSystemAction` / `sendSystemAction`): action, credential,
and the `{ delay, force }` option bag. -/
structure WireReq where
  action : String
  key : String
  delay : Nat
  force : Bool
  deriving DecidableEq

/-- Component props plus the outcome the awaited transport call would
produce (success value or thrown error message). -/
structure BtnCfg where
  action : String
  secretKey : String
  delay : Nat
  force : Bool
  hasValidator : Bool
  validateOk : Bool
  sendOutcome : Except String Unit

/-- Result of one handler invocation: the next state, the transport
requests issued, and the alert messages surfaced. -/
structure StepOut where
  state : BtnState
  reqs : List WireReq
  alerts : List String
  deriving DecidableEq

/-- `executeAction`: clears timers, leaves countdown mode, sends ONE
request whose option bag is `{ delay: 0, force }` ("Delay already handled
by countdown") in BOTH the bluetooth and the wifi branch, alerts only on a
thrown error, and finally clears `isProcessing`. -/
def executeActionStep (cfg : BtnCfg) : StepOut :=
  { state := { isProcessing := false, isCountingDown := false, countdown := 0 },
    reqs := [{ action := cfg.action, key := cfg.secretKey, delay := 0, force := cfg.force }],
    alerts := match cfg.sendOutcome with
      | .ok _ => []
      | .error m => [m] }

/-- `handlePress`: cancel-on-reentry while counting down (silent, no
request); otherwise validate, run `cancel` immediately, and start the
countdown — which itself executes immediately when `delay = 0`. -/
def handlePress (cfg : BtnCfg) (s : BtnState) : StepOut :=
  if s.isCountingDown then
    -- cancelCountdown(): clear both timers, leave countdown mode, "No alert"
    { state := { s with isCountingDown := false, countdown := 0 },
      reqs := [], alerts := [] }
  else if cfg.hasValidator && !cfg.validateOk then
    { state := s, reqs := [], alerts := [] }
  else if cfg.action == "cancel" then
    executeActionStep cfg
  else if cfg.delay == 0 then
    executeActionStep cfg
  else
    { state := { s with isCountingDown := true, countdown := cfg.delay },
      reqs := [], alerts := [] }

/-- The `setInterval` callback: at `countdown ≤ 1` clear the interval and
execute; otherwise decrement.  The interval only exists while counting
down, so outside that mode a tick is a no-op. -/
def tickStep (cfg : BtnCfg) (s : BtnState) : StepOut :=
  if s.isCountingDown then
    if s.countdown ≤ 1 then executeActionStep cfg
    else { state := { s with countdown := s.countdown - 1 }, reqs := [], alerts := [] }
  else { state := s, reqs := [], alerts := [] }

/-- Run `n` one-second ticks from `s`, accumulating effects. -/
def runTicks (cfg : BtnCfg) (s : BtnState) : Nat → StepOut
  | 0 => { state := s, reqs := [], alerts := [] }
  | n + 1 =>
    let o := runTicks cfg s n
    let o2 := tickStep cfg o.state
    { state := o2.state, reqs := o.reqs ++ o2.reqs, alerts := o.alerts ++ o2.alerts }

/-- One button press followed by `n` ticks. -/
def pressAndRun (cfg : BtnCfg) (s : BtnState) (n : Nat) : StepOut :=
  let o := handlePress cfg s
  let o2 := runTicks cfg o.state n
  { state := o2.state, reqs := o.reqs ++ o2.reqs, alerts := o.alerts ++ o2.alerts }

/-! ## Concrete sample worlds used by witnesses and counterexamples -/

/-- A concrete introspection snapshot. -/
def sampleInfo : SystemInfo :=
  { hostname := "DESKTOP-A", platform := "win32", release := "10.0",
    uptime := 60, uptimeFormatted := "1m", totalMemory := "16.00 GB",
    freeMemory := "8.00 GB", cpus := 8, localIP := "192.168.43.100",
    timestamp := "2026-01-01T00:00:00.000Z" }

/-- A world in which every OS call succeeds. -/
def sampleEnv : SysEnv :=
  { shutdownExec := .ok, restartExec := .ok, sleepExec := .ok,
    hibernateExec := .ok, logoutExec := .ok, cancelExec := .ok,
    sysInfo := sampleInfo, nowMs := 1000, isoOf := fun _ => "2026-01-01T00:00:01.000Z" }

/-- A world in which the OS shutdown command fails. -/
def failEnv : SysEnv :=
  { shutdownExec := .err "boom", restartExec := .ok, sleepExec := .ok,
    hibernateExec := .ok, logoutExec := .ok, cancelExec := .err "nothing scheduled",
    sysInfo := sampleInfo, nowMs := 1000, isoOf := fun _ => "2026-01-01T00:00:01.000Z" }

/-- A subnet with two hosts running the service: `.1` answers in 5 ms,
`.2` in 3 ms — the later address is the faster one. -/
def exEnvC4 : ProbeEnv := fun ip =>
  if ip == "10.0.0.1" then some { status := "ok", rtt := 5 }
  else if ip == "10.0.0.2" then some { status := "ok", rtt := 3 }
  else none

/-- The props of Scenario B: a `shutdown` button, delay 5, credential `"abc"`,
no validator, transport succeeding. -/
def cfgB : BtnCfg :=
  { action := "shutdown", secretKey := "abc", delay := 5, force := false,
    hasValidator := false, validateOk := true, sendOutcome := .ok () }

/-- The idle component state. -/
def idleS : BtnState :=
  { isProcessing := false, isCountingDown := false, countdown := 0 }

/-- A counting-down component state (3 s left). -/
def countingS : BtnState :=
  { isProcessing := false, isCountingDown := true, countdown := 3 }

/-! ## Helper lemmas -/

set_option maxRecDepth 8000

/-- Inserting into a latency-sorted list keeps it sorted. -/
theorem isSortedRT_insertRT (d : DiscoveredDevice) :
    ∀ l, isSortedRT l = true → isSortedRT (insertRT d l) = true := by
  intro l
  induction l with
  | nil => intro _; simp [insertRT, isSortedRT]
  | cons x xs ih =>
    intro h
    simp only [insertRT]
    by_cases hdx : d.responseTime ≤ x.responseTime
    · simp only [if_pos hdx, isSortedRT]
      simp [hdx, h]
    · simp only [if_neg hdx]
      cases xs with
      | nil =>
        simp [insertRT, isSortedRT]
        omega
      | cons y ys =>
        have hxy : x.responseTime ≤ y.responseTime := by
          simp [isSortedRT] at h
          exact h.1
        have hys : isSortedRT (y :: ys) = true := by
          simp [isSortedRT] at h ⊢
          exact h.2
        have ih2 := ih hys
        simp only [insertRT] at ih2 ⊢
        by_cases hdy : d.responseTime ≤ y.responseTime
        · simp only [if_pos hdy] at ih2 ⊢
          simp [isSortedRT, hdy, hys]
          omega
        · simp only [if_neg hdy] at ih2 ⊢
          simp [isSortedRT] at ih2 ⊢
          exact ⟨hxy, ih2⟩

/-- The latency comparator sort always yields a latency-sorted list. -/
theorem isSortedRT_sortRT (l : List DiscoveredDevice) :
    isSortedRT (sortRT l) = true := by
  induction l with
  | nil => rfl
  | cons x xs ih => exact isSortedRT_insertRT x (sortRT xs) ih

/-- The middleware has exactly three outcomes: pass, 401, or 403. -/
theorem authenticate_cases (secret : String) (b h : Option String) :
    authenticate secret b h = .allow ∨
    authenticate secret b h = .reject authRequiredResp ∨
    authenticate secret b h = .reject invalidKeyResp := by
  unfold authenticate
  cases hJ : jsOrOpt b h
  · simp
  · dsimp only
    split_ifs <;> simp

/-- Every transport request issued by a button press carries `delay = 0`. -/
theorem handlePress_delay_zero (cfg : BtnCfg) (s : BtnState) :
    ∀ r ∈ (handlePress cfg s).reqs, r.delay = 0 := by
  intro r hr
  unfold handlePress executeActionStep at hr
  split_ifs at hr <;> simp_all

/-- Every transport request issued by a countdown tick carries `delay = 0`. -/
theorem tickStep_delay_zero (cfg : BtnCfg) (s : BtnState) :
    ∀ r ∈ (tickStep cfg s).reqs, r.delay = 0 := by
  intro r hr
  unfold tickStep executeActionStep at hr
  split_ifs at hr <;> simp_all

/-- Every transport request issued across `n` ticks carries `delay = 0`. -/
theorem runTicks_delay_zero (cfg : BtnCfg) (s : BtnState) (n : Nat) :
    ∀ r ∈ (runTicks cfg s n).reqs, r.delay = 0 := by
  induction n with
  | zero => intro r hr; simp [runTicks] at hr
  | succ n ih =>
    intro r hr
    simp only [runTicks, List.mem_append] at hr
    rcases hr with hr | hr
    · exact ih r hr
    · exact tickStep_delay_zero cfg _ r hr

/-- Every transport request of a press-then-countdown run carries
`delay = 0`. -/
theorem pressAndRun_delay_zero (cfg : BtnCfg) (s : BtnState) (n : Nat) :
    ∀ r ∈ (pressAndRun cfg s n).reqs, r.delay = 0 := by
  intro r hr
  simp only [pressAndRun, List.mem_append] at hr
  rcases hr with hr | hr
  · exact handlePress_delay_zero cfg s r hr
  · exact runTicks_delay_zero cfg _ n r hr

/-! ## Claim theorems -/

/-- Claim C1 (counterexample): the claim says authentication succeeds iff
the TRIMMED provided credential equals the TRIMMED configured secret on
every carrier.  With configured secret `"xyz "` (trailing space) and
provided credential `"xyz"`, the trimmed strings coincide and the HTTP
guard allows the request — but the serial carrier compares the parsed key
field verbatim against the untrimmed secret (`command.key !== secretKey`)
and rejects the very same credential with the invalid-key response, so the
carriers are NOT identical and the iff fails for the serial carrier. -/
theorem claim1_counterexample :
    jsTrim "xyz" = jsTrim "xyz " ∧
    authenticate "xyz " (some "xyz") none = .allow ∧
    (processCommandR "status:xyz:\n" "xyz " sampleEnv).success = false ∧
    processCommand "status:xyz:\n" "xyz " sampleEnv =
      createResponse false "Authentication failed: Invalid key" := by
  refine ⟨by decide, by decide, by decide, by decide⟩

/-- Claim C1 (amended): for a non-empty provided credential, the two HTTP
carriers (request-body field and `x-shared-secret` header) authenticate
iff the trimmed credential equals the trimmed configured secret; the
serial carrier instead authenticates iff the parsed key field equals the
configured secret exactly, with no trimming of either side. -/
theorem claim1_auth_per_carrier (k secret : String) (hk : k ≠ "") :
    (authenticate secret (some k) none = .allow ↔ jsTrim k = jsTrim secret) ∧
    (authenticate secret none (some k) = .allow ↔ jsTrim k = jsTrim secret) ∧
    ∀ (act : String) (opts : List (String × String)),
      btKeyValid { action := act, key := k, options := opts } secret = true ↔ k = secret := by
  have hk' : (k == "") = false := by simpa using hk
  refine ⟨?_, ?_, ?_⟩
  · simp only [authenticate, jsOrOpt, jsTruthy, hk']
    by_cases h : jsTrim k = jsTrim secret
    · simp [h, hk]
    · simp [h, hk]
  · simp only [authenticate, jsOrOpt, jsTruthy, hk']
    by_cases h : jsTrim k = jsTrim secret
    · simp [h, hk]
    · simp [h, hk]
  · intro act opts
    simp [btKeyValid]

/-- Claim C1 witness: the amended statement instantiated at credential
`"abc"` against secret `" abc "`. -/
theorem claim1_auth_per_carrier_witness :
    ("abc" : String) ≠ "" ∧
    ((authenticate " abc " (some "abc") none = .allow ↔ jsTrim "abc" = jsTrim " abc ") ∧
     (authenticate " abc " none (some "abc") = .allow ↔ jsTrim "abc" = jsTrim " abc ") ∧
     ∀ (act : String) (opts : List (String × String)),
       btKeyValid { action := act, key := "abc", options := opts } " abc " = true ↔
         ("abc" : String) = " abc ") :=
  ⟨by decide, claim1_auth_per_carrier "abc" " abc " (by decide)⟩

/-- Claim C2: an authenticated `cancel` request always yields HTTP 200 with
`success = true` — `cancelShutdown` resolves in both callback branches, so
a failing OS cancel (`shutdown /a` with nothing scheduled) is swallowed at
the executor boundary and the dispatcher-facing route reports success. -/
theorem claim2_cancel_always_success (e : SysEnv) (secret : String)
    (body : ShutdownBody) (hdr : Option String)
    (hauth : authenticate secret body.key hdr = .allow) :
    cancelShutdown e = .ok () ∧
    handleCancel e =
      { status := 200, success := true,
        message := some "Scheduled shutdown/restart cancelled" } ∧
    apiHandle .cancel secret body hdr e =
      { status := 200, success := true,
        message := some "Scheduled shutdown/restart cancelled" } := by
  have h1 : cancelShutdown e = .ok () := by
    unfold cancelShutdown
    cases e.cancelExec <;> rfl
  refine ⟨h1, ?_, ?_⟩
  · unfold handleCancel
    rw [h1]
  · unfold apiHandle
    rw [hauth]
    unfold routeHandle handleCancel
    rw [h1]

/-- Claim C2 witness: a world whose OS cancel command errors
(`failEnv.cancelExec = .err ..`) still produces the 200 success reply. -/
theorem claim2_cancel_always_success_witness :
    authenticate "abc" (some "abc") none = .allow ∧
    (cancelShutdown failEnv = .ok () ∧
     handleCancel failEnv =
       { status := 200, success := true,
         message := some "Scheduled shutdown/restart cancelled" } ∧
     apiHandle .cancel "abc" { key := some "abc" } none failEnv =
       { status := 200, success := true,
         message := some "Scheduled shutdown/restart cancelled" }) :=
  ⟨by decide, claim2_cancel_always_success failEnv "abc" { key := some "abc" } none (by decide)⟩

/-- Claim C3: pressing an action button while it is counting down runs
`cancelCountdown` and nothing else — the state returns to Idle
(`isCountingDown = false`, `countdown = 0`), no transport request is
issued, and no alert is surfaced. -/
theorem claim3_reentry_cancels_silently (cfg : BtnCfg) (s : BtnState)
    (h : s.isCountingDown = true) :
    handlePress cfg s =
      { state := { s with isCountingDown := false, countdown := 0 },
        reqs := [], alerts := [] } := by
  simp [handlePress, h]

/-- Claim C3 witness: the Scenario-B button pressed mid-countdown. -/
theorem claim3_reentry_cancels_silently_witness :
    countingS.isCountingDown = true ∧
    handlePress cfgB countingS =
      { state := { countingS with isCountingDown := false, countdown := 0 },
        reqs := [], alerts := [] } :=
  ⟨by decide, claim3_reentry_cancels_silently cfgB countingS (by decide)⟩

/-- Claim C4 (counterexample): `scanSubnet` — the single-range scan
operation — returns `foundDevices` WITHOUT the final latency sort every
sibling variant applies.  In a subnet where host `.1` answers in 5 ms and
host `.2` in 3 ms, the result is in address order `[5 ms, 3 ms]`, which is
not non-decreasing in latency. -/
theorem claim4_counterexample :
    scanSubnet exEnvC4 "10.0.0" 3000 =
      [{ ip := "10.0.0.1", port := 3000, hostname := none,
         responseTime := 5, hasService := true },
       { ip := "10.0.0.2", port := 3000, hostname := none,
         responseTime := 3, hasService := true }] ∧
    isSortedRT (scanSubnet exEnvC4 "10.0.0" 3000) = false := by
  constructor
  · decide
  · decide

/-- Claim C4 (amended): every scan variant EXCEPT `scanSubnet` —
`scanAllDevices`, `scanNetwork`, `quickScan`, `scanHotspotDevices` —
returns its device list sorted by non-decreasing measured latency, for
every network and every port; `scanSubnet` returns devices in probe
(address) order. -/
theorem claim4_sorted_except_scanSubnet (env : ProbeEnv) (port : Nat) :
    isSortedRT (scanAllDevices env port) = true ∧
    isSortedRT (scanNetwork env port) = true ∧
    isSortedRT (quickScan env port) = true ∧
    isSortedRT (scanHotspotDevices env port) = true := by
  refine ⟨?_, ?_, ?_, ?_⟩ <;>
    simp only [scanAllDevices, scanNetwork, quickScan, scanHotspotDevices] <;>
    exact isSortedRT_sortRT _

/-- Claim C5 (counterexample): for the serial line `"status:abc:\n"`
against configured secret `"xyz"`, the reply on the wire is NOT the
line-protocol string `"ERROR:Authentication failed: Invalid key\n"` the
claim specifies — `createResponse` frames every server reply as JSON. -/
theorem claim5_counterexample :
    processCommand "status:abc:\n" "xyz" sampleEnv ≠
      "ERROR:Authentication failed: Invalid key\n" ∧
    (processCommandR "status:abc:\n" "xyz" sampleEnv).success = false := by
  constructor
  · decide
  · decide

/-- Claim C5 (amended): for the serial line `"status:abc:\n"` against the
mismatched configured secret `"xyz"` the server reply is exactly the JSON
line `{"success":false,"message":"Authentication failed: Invalid key"}`
followed by a newline, in every world (the auth-failure path consults no
OS state). -/
theorem claim5_auth_failure_reply (e : SysEnv) :
    processCommand "status:abc:\n" "xyz" e =
      "\x7b\"success\":false,\"message\":\"Authentication failed: Invalid key\"\x7d\n" := rfl

/-- Claim C6: every request a button hands to the active transport —
after a press and any number of countdown ticks, including the `delay = 0`
immediate path — carries `delay = 0` (the Bluetooth encoding of such a
request reads `action:key:delay=0,force=..`), and feeding any such request
to the shutdown route in a world where the OS call succeeds produces the
immediate-execution response `"Shutdown initiated immediately"` with
`success = true`. -/
theorem claim6_wire_delay_zero (cfg : BtnCfg) (s : BtnState) (n : Nat) (e : SysEnv)
    (he : e.shutdownExec = .ok) :
    ∀ r ∈ (pressAndRun cfg s n).reqs,
      r.delay = 0 ∧
      buildBtCommand r.action r.key (some r.delay) (some r.force) =
        r.action ++ ":" ++ r.key ++ ":" ++
          (if r.force then "delay=0,force=true" else "delay=0,force=false") ++ "\n" ∧
      (handleShutdown { key := some r.key, delay := r.delay, force := r.force } e).success
        = true ∧
      (handleShutdown { key := some r.key, delay := r.delay, force := r.force } e).message
        = some "Shutdown initiated immediately" := by
  intro r hr
  have h0 := pressAndRun_delay_zero cfg s n r hr
  refine ⟨h0, ?_, ?_, ?_⟩
  · rw [h0]
    cases hf : r.force <;> simp [hf] <;> rfl
  · rw [h0]
    simp [handleShutdown, shutdownSystem, he]
  · rw [h0]
    simp [handleShutdown, shutdownSystem, he]

/-- Claim C6 witness (Scenario B): the shutdown button with delay 5 and
credential `"abc"`, pressed and ticked five times, in an all-ok world. -/
theorem claim6_wire_delay_zero_witness :
    sampleEnv.shutdownExec = .ok ∧
    ∀ r ∈ (pressAndRun cfgB idleS 5).reqs,
      r.delay = 0 ∧
      buildBtCommand r.action r.key (some r.delay) (some r.force) =
        r.action ++ ":" ++ r.key ++ ":" ++
          (if r.force then "delay=0,force=true" else "delay=0,force=false") ++ "\n" ∧
      (handleShutdown { key := some r.key, delay := r.delay, force := r.force } sampleEnv).success
        = true ∧
      (handleShutdown { key := some r.key, delay := r.delay, force := r.force } sampleEnv).message
        = some "Shutdown initiated immediately" :=
  ⟨by decide, claim6_wire_delay_zero cfgB idleS 5 sampleEnv (by decide)⟩

/-- Claim C7: on both transports, a server reply with `success = false`
never carries a `scheduledTime` — every HTTP failure body (401, 403, and
each 500) omits the field, and every failing serial reply carries no extra
payload at all. -/
theorem claim7_no_scheduledTime_on_failure (r : Route) (secret : String)
    (body : ShutdownBody) (hdr : Option String) (e : SysEnv) (cmd : String) :
    ((apiHandle r secret body hdr e).success = false →
      (apiHandle r secret body hdr e).scheduledTime = none) ∧
    ((processCommandR cmd secret e).success = false →
      (processCommandR cmd secret e).extra = none) := by
  constructor
  · rcases authenticate_cases secret body.key hdr with h | h | h
    · simp only [apiHandle, h]
      cases r
      case shutdown =>
        cases hx : e.shutdownExec <;> simp [routeHandle, handleShutdown, shutdownSystem, hx]
      case restart =>
        cases hx : e.restartExec <;> simp [routeHandle, handleRestart, restartSystem, hx]
      case sleep =>
        cases hx : e.sleepExec <;> simp [routeHandle, handleSleep, sleepSystem, hx]
      case hibernate =>
        cases hx : e.hibernateExec <;> simp [routeHandle, handleHibernate, hibernateSystem, hx]
      case logout =>
        cases hx : e.logoutExec <;> simp [routeHandle, handleLogout, logoutSystem, hx]
      case cancel =>
        cases hx : e.cancelExec <;> simp [routeHandle, handleCancel, cancelShutdown, hx]
      case status => simp [routeHandle, handleStatus]
    · simp [apiHandle, h, authRequiredResp]
    · simp [apiHandle, h, invalidKeyResp]
  · cases hp : parseCommand cmd
    case none => simp [processCommandR, hp]
    case some c =>
      by_cases hv : btKeyValid c secret
      · simp only [processCommandR, hp, hv]
        split_ifs <;>
          first
          | simp
          | (cases hx : e.shutdownExec <;> simp [shutdownSystem, hx])
          | (cases hx : e.restartExec <;> simp [restartSystem, hx])
          | (cases hx : e.sleepExec <;> simp [sleepSystem, hx])
          | (cases hx : e.hibernateExec <;> simp [hibernateSystem, hx])
          | (cases hx : e.logoutExec <;> simp [logoutSystem, hx])
          | (cases hx : e.cancelExec <;> simp [cancelShutdown, hx])
      · simp [processCommandR, hp, hv]

/-- Claim C7 witness: a failing shutdown (HTTP 500) and a failing serial
authentication, both without any schedule information. -/
theorem claim7_no_scheduledTime_on_failure_witness :
    (apiHandle .shutdown "abc" { key := some "abc" } none failEnv).success = false ∧
    (apiHandle .shutdown "abc" { key := some "abc" } none failEnv).scheduledTime = none ∧
    (processCommandR "status:zzz:" "abc" failEnv).success = false ∧
    (processCommandR "status:zzz:" "abc" failEnv).extra = none :=
  ⟨by decide,
   (claim7_no_scheduledTime_on_failure .shutdown "abc" { key := some "abc" } none failEnv
     "status:zzz:").1 (by decide),
   by decide,
   (claim7_no_scheduledTime_on_failure .shutdown "abc" { key := some "abc" } none failEnv
     "status:zzz:").2 (by decide)⟩

/-- Claim C8: the serial decoder accepts a line exactly when its trimmed
form has at least two colon-delimited fields (so a two-field line with no
options segment is well-formed, and any shorter line is a parse failure),
and the client encoder with an empty option bag emits `action:key\n` with
no options segment and no trailing delimiter. -/
theorem claim8_codec_options_optional :
    (∀ s : String, (parseCommand s).isSome = decide (2 ≤ (jsSplit ':' (jsTrim s)).length)) ∧
    ∀ action secretKey : String,
      buildBtCommand action secretKey none none = action ++ ":" ++ secretKey ++ "\n" := by
  constructor
  · intro s
    simp only [parseCommand]
    by_cases h : (jsSplit ':' (jsTrim s)).length < 2
    all_goals simp [h]
    all_goals omega
  · intro a k
    rfl

/-- Claim C9: in the batch model of the scanner (one inner list = the
probes started together by one `Promise.all`, outer list order = strict
batch sequencing), every batch of every scan variant holds at most that
variant's configured batch size, so the in-flight probe count never
exceeds it: 50 for `scanAllDevices`, 20 for `scanNetwork`, 30 for
`quickScan`, 25 for `scanSubnet`, 10 for `scanHotspotDevices`. -/
theorem claim9_batch_size_bound :
    (scanAllDevicesBatches.all fun b => decide (b.length ≤ 50)) = true ∧
    (scanNetworkBatches.all fun b => decide (b.length ≤ 20)) = true ∧
    (quickScanBatches.all fun b => decide (b.length ≤ 30)) = true ∧
    (scanSubnetBatches.all fun b => decide (b.length ≤ 25)) = true ∧
    (scanHotspotBatches.all fun b => decide (b.length ≤ 10)) = true := by
  refine ⟨by decide, by decide, by decide, by decide, by decide⟩

/-- Claim C10: in the HTTP guard, a non-empty body credential shadows any
header credential; an empty-string body credential is falsy under `||`, so
the guard falls back to the header; and when both carriers are absent (or
the surviving value is empty) the guard rejects 401 `AUTH_REQUIRED`
instead of comparing `""` against the secret. -/
theorem claim10_body_precedence_empty_fallback (s hdr secret : String) (hs : s ≠ "") :
    authenticate secret (some s) (some hdr) = authenticate secret (some s) none ∧
    authenticate secret (some "") (some hdr) = authenticate secret none (some hdr) ∧
    authenticate secret (some "") none = .reject authRequiredResp ∧
    authenticate secret none none = .reject authRequiredResp := by
  have hs' : (s == "") = false := by simpa using hs
  refine ⟨?_, ?_, ?_, ?_⟩
  · simp [authenticate, jsOrOpt, jsTruthy, hs']
  · simp [authenticate, jsOrOpt, jsTruthy]
  · simp [authenticate, jsOrOpt, jsTruthy]
  · simp [authenticate, jsOrOpt, jsTruthy]

/-- Claim C10 witness: body credential `"abc"`, header credential
`"other"`, secret `"abc"`. -/
theorem claim10_body_precedence_empty_fallback_witness :
    ("abc" : String) ≠ "" ∧
    (authenticate "abc" (some "abc") (some "other") = authenticate "abc" (some "abc") none ∧
     authenticate "abc" (some "") (some "other") = authenticate "abc" none (some "other") ∧
     authenticate "abc" (some "") none = .reject authRequiredResp ∧
     authenticate "abc" none none = .reject authRequiredResp) :=
  ⟨by decide, claim10_body_precedence_empty_fallback "abc" "other" "abc" (by decide)⟩

end RemoteShutdown
